import Mathlib

/-
Shallow embedding of `src/src/App.jsx` ("BathingCrow"), a single-file React /
three.js scene.  The state-bearing logic embedded here:

* `DraggableSponge`'s `useFrame` callback (lines 98-129): while dragging, the
  pointer-derived world position has its y-component clamped to [-0.3, 1.2],
  is stored, and a proximity detector fires a scrub event when the Euclidean
  distance to the crow center (0, -0.6, 0) is strictly below 0.9 and the
  cooldown flag is not set; firing sets the cooldown and schedules its release
  350 ms later (`setTimeout`), plays two sounds and calls `onScrub`.  While
  not dragging, the mesh rotates by 0.01 per frame and bobs vertically by
  `sin(now / 700) * 0.02` around the stored y.

* `App` (lines 182-243): `handleScrub` increments the `scrubs` counter; a
  `useEffect` on `scrubs` sets `isGlowing` once `scrubs >= 10` (never unsets
  it); `handleAnswer` ignores its argument, hides the intro modal and
  schedules `setDead(true)` 800 ms later; the HUD shows "Scrubs: N / 10".

* `ModelOrFallback` / `CrowModel` (lines 14-66, 172-179): try to load a GLTF
  asset, and on failure render procedurally generated placeholder geometry.

Coordinates and times are rationals.  The source compares
`Math.sqrt(dx*dx+dy*dy+dz*dz) < 0.9`; since both sides are non-negative this
is equivalent to comparing the squared distance with 0.9^2, which is how the
guard is embedded (the equivalence over ℝ is proved in
`scrubGuard_iff_sqrt_lt`).  `Math.sin` is an arbitrary but fixed function, so
the frame step is parametrised by `sinFn : ℚ → ℚ`.  The cooldown boolean plus
its release timer are embedded as `cooldownUntil : Option ℚ`: `none` when the
flag is clear, `some u` when the flag is set with the release scheduled at
time `u`; the flag is active at time `now` iff `now < u`.
-/

namespace BathingCrow

/-- A 3D point with rational coordinates. -/
structure Vec3 where
  x : ℚ
  y : ℚ
  z : ℚ
deriving DecidableEq

/-- The crow's center used by the proximity check, `(0, -0.6, 0)` (line 110). -/
def crowCenter : Vec3 := ⟨0, -(6/10), 0⟩

/-- The trigger radius `0.9` (line 115). -/
def triggerRadius : ℚ := 9/10

/-- The squared trigger radius (the guard is embedded on squared distances). -/
def radiusSq : ℚ := triggerRadius ^ 2

/-- The cooldown duration in milliseconds, `350` (line 121). -/
def cooldownMs : ℚ := 350

/-- The delay before the dead overlay, `800` ms (line 205). -/
def deadDelayMs : ℚ := 800

/-- Squared Euclidean distance: `dx*dx + dy*dy + dz*dz` (lines 111-114). -/
def distSq (a b : Vec3) : ℚ :=
  (a.x - b.x) ^ 2 + (a.y - b.y) ^ 2 + (a.z - b.z) ^ 2

/-- `Math.max(-0.3, Math.min(1.2, y))` (line 107). -/
def clampY (y : ℚ) : ℚ := max (-(3/10)) (min (12/10) y)

/-- `newPos = [pos.x, clampY pos.y, pos.z]` (line 107). -/
def dragClamp (p : Vec3) : Vec3 := ⟨p.x, clampY p.y, p.z⟩

/-- The threshold test `dist < 0.9` (line 115), embedded on squared
distances: for non-negative `d`, `Math.sqrt d < 0.9 ↔ d < 0.9^2`. -/
def scrubGuard (p : Vec3) : Bool := decide (distSq p crowCenter < radiusSq)

/-- Whether the cooldown flag is set at time `now`: the flag was set and its
scheduled release time has not been reached (lines 115-121). -/
def cooldownActive (now : ℚ) : Option ℚ → Bool
  | none => false
  | some u => decide (now < u)

/-- The two fire-and-forget sound cues (lines 119-120). -/
inductive Sound where
  | splash
  | caw
deriving DecidableEq

/-- Lines 115-122: if `dist < 0.9 && !scrubCooldown.current`, set the flag,
fire, and schedule the release `350` ms later; otherwise do nothing.
Returns (fired?, new cooldown state). -/
def scrubDetect (p : Vec3) (now : ℚ) (cd : Option ℚ) : Bool × Option ℚ :=
  if scrubGuard p && !cooldownActive now cd then (true, some (now + cooldownMs))
  else (false, cd)

/-- The sponge's per-frame state: the stored React `position`, the cooldown
flag with its scheduled release, the imperative `ref` rotation and rendered
y-offset (lines 84-87, 125-128). -/
structure SpongeState where
  position : Vec3
  cooldownUntil : Option ℚ
  rotZ : ℚ
  renderY : ℚ
deriving DecidableEq

/-- Initial sponge state: position `[1.2, 0.5, 0.6]` (line 85), cooldown
clear (line 87). -/
def initialSponge : SpongeState := ⟨⟨12/10, 5/10, 6/10⟩, none, 0, 5/10⟩

/-- Per-frame input: whether a drag gesture is active, the pointer-derived
unprojected world position (lines 101-105), and `performance.now()`. -/
structure FrameInput where
  dragging : Bool
  pointerPos : Vec3
  now : ℚ
deriving DecidableEq

/-- What one `useFrame` call produces: the next sponge state, whether a scrub
event fired, and the sounds played. -/
structure FrameResult where
  state : SpongeState
  fired : Bool
  sounds : List Sound
deriving DecidableEq

/-- The `useFrame` callback (lines 98-129).  Dragging: clamp and store the
new position, run the proximity detector, on fire play splash then caw.
Idle: rotate by 0.01 and bob by `sinFn (now / 700) * 0.02` around the stored
y; never fire. -/
def spongeFrame (sinFn : ℚ → ℚ) (f : FrameInput) (s : SpongeState) :
    FrameResult :=
  if f.dragging then
    let newPos := dragClamp f.pointerPos
    let d := scrubDetect newPos f.now s.cooldownUntil
    { state := { s with position := newPos, cooldownUntil := d.2 },
      fired := d.1,
      sounds := if d.1 then [Sound.splash, Sound.caw] else [] }
  else
    { state := { s with rotZ := s.rotZ + 1/100,
                        renderY := s.position.y + sinFn (f.now / 700) * (2/100) },
      fired := false,
      sounds := [] }

/-- The `App` component's state: `scrubs`, `isGlowing`, `showIntro`, `dead`
(lines 183-186). -/
structure AppState where
  scrubs : Nat
  isGlowing : Bool
  showIntro : Bool
  dead : Bool
deriving DecidableEq

/-- Initial app state (lines 183-186). -/
def initialAppState : AppState := ⟨0, false, true, false⟩

/-- The `useEffect` on `scrubs` (lines 188-194): once `scrubs >= 10`, set
`isGlowing` to true; it is never set back to false. -/
def glowEffect (s : AppState) : AppState :=
  if 10 ≤ s.scrubs then { s with isGlowing := true } else s

/-- `handleScrub` (lines 196-198): increment the counter by one. -/
def handleScrub (s : AppState) : AppState := { s with scrubs := s.scrubs + 1 }

/-- The two modal buttons (lines 226-227). -/
inductive Answer where
  | yes
  | no
deriving DecidableEq

/-- `handleAnswer` (lines 200-206): both answers hide the intro modal and
schedule `setDead(true)` after the fixed 800 ms delay.  Returns the new state
and the scheduled delay. -/
def handleAnswer (ans : Answer) (s : AppState) : AppState × ℚ :=
  ({ s with showIntro := false }, deadDelayMs)

/-- The deferred callback of `handleAnswer`'s `setTimeout` (line 204). -/
def deadTimerFire (s : AppState) : AppState := { s with dead := true }

/-- The discrete events that mutate `App` state. -/
inductive AppEvent where
  | scrubEvent
  | answerEvent (a : Answer)
  | deadTimer
deriving DecidableEq

/-- One app-level state transition.  A scrub event runs `handleScrub` and
then the `useEffect` re-runs since `scrubs` changed. -/
def appStep : AppEvent → AppState → AppState
  | AppEvent.scrubEvent, s => glowEffect (handleScrub s)
  | AppEvent.answerEvent a, s => (handleAnswer a s).1
  | AppEvent.deadTimer, s => deadTimerFire s

/-- A sequence of app-level events applied in order. -/
def appRun : List AppEvent → AppState → AppState
  | [], s => s
  | e :: es, s => appRun es (appStep e s)

/-- The HUD counter text, `Scrubs: N / 10` (line 212). -/
def hudCounter (s : AppState) : String :=
  "Scrubs: " ++ toString s.scrubs ++ " / 10"

/-- Result of running a sequence of frames: the final sponge state, how many
scrub events fired, and the final app state. -/
structure SimResult where
  sponge : SpongeState
  fires : Nat
  app : AppState
deriving DecidableEq

/-- Frame-by-frame simulation: each frame runs the sponge's `useFrame`
callback, and each fired scrub event runs `onScrub` = `handleScrub` followed
by the glow `useEffect` (lines 117, 164, 196-198, 188-194). -/
def simulate (sinFn : ℚ → ℚ) :
    List FrameInput → SpongeState → AppState → SimResult
  | [], sp, app => ⟨sp, 0, app⟩
  | f :: fs, sp, app =>
    let r := spongeFrame sinFn f sp
    let app2 := if r.fired then appStep AppEvent.scrubEvent app else app
    let rest := simulate sinFn fs r.state app2
    ⟨rest.sponge, (if r.fired then 1 else 0) + rest.fires, rest.app⟩

/-- Two consecutive frames spaced at least the cooldown duration apart. -/
def spacedFrames (a b : FrameInput) : Prop := a.now + cooldownMs ≤ b.now

/-- A concrete fixture: ten dragging frames with the pointer at the origin,
350 ms apart. -/
def tenFrames : List FrameInput :=
  [⟨true, ⟨0, 0, 0⟩, 0⟩, ⟨true, ⟨0, 0, 0⟩, 350⟩, ⟨true, ⟨0, 0, 0⟩, 700⟩,
   ⟨true, ⟨0, 0, 0⟩, 1050⟩, ⟨true, ⟨0, 0, 0⟩, 1400⟩, ⟨true, ⟨0, 0, 0⟩, 1750⟩,
   ⟨true, ⟨0, 0, 0⟩, 2100⟩, ⟨true, ⟨0, 0, 0⟩, 2450⟩, ⟨true, ⟨0, 0, 0⟩, 2800⟩,
   ⟨true, ⟨0, 0, 0⟩, 3150⟩]

/-- Outcome of resolving a 3D asset path (`useGLTF`): either the asset
loads, or loading throws. -/
inductive LoadResult (α : Type) where
  | loaded (asset : α)
  | failed (err : String)

/-- What `ModelOrFallback` renders. -/
inductive Rendered where
  | primitiveScene
  | fallbackShape
deriving DecidableEq

/-- `ModelOrFallback` (lines 172-179): try the asset, and on any load failure
render the supplied fallback; the failure is caught, not propagated. -/
def ModelOrFallback (load : LoadResult Unit) : Rendered :=
  match load with
  | LoadResult.loaded _ => Rendered.primitiveScene
  | LoadResult.failed _ => Rendered.fallbackShape

/-- What `CrowModel` renders. -/
inductive CrowRender where
  | gltfScene (glowing : Bool)
  | placeholderCrow (glowing : Bool)
deriving DecidableEq

/-- `CrowModel` (lines 14-66): try `/models/crow.glb`, and on any load
failure render the procedural placeholder crow; the glow flag only selects
materials in either branch. -/
def CrowModel (load : LoadResult Unit) (isGlowing : Bool) : CrowRender :=
  match load with
  | LoadResult.loaded _ => CrowRender.gltfScene isGlowing
  | LoadResult.failed _ => CrowRender.placeholderCrow isGlowing

/-! ### Bridging lemma for the threshold embedding -/

/-- For the non-negative squared distance, the source's comparison
`Math.sqrt d < 0.9` agrees with the embedded squared comparison. -/
theorem scrubGuard_iff_sqrt_lt (p : Vec3) :
    scrubGuard p = true ↔
      Real.sqrt ((distSq p crowCenter : ℚ) : ℝ) < (9 : ℝ) / 10 := by
  have h9 : (0 : ℝ) < 9 / 10 := by norm_num
  rw [Real.sqrt_lt' h9]
  unfold scrubGuard radiusSq triggerRadius
  rw [decide_eq_true_iff,
    show ((9 : ℝ) / 10) ^ 2 = ((((9 : ℚ) / 10) ^ 2 : ℚ) : ℝ) by push_cast; ring]
  exact (Rat.cast_lt (K := ℝ)).symm

/-! ### Helper lemmas -/

/-- The glow effect never touches the counter. -/
theorem glowEffect_scrubs (s : AppState) : (glowEffect s).scrubs = s.scrubs := by
  unfold glowEffect
  split <;> rfl

/-- The glow effect never touches the intro flag. -/
theorem glowEffect_showIntro (s : AppState) :
    (glowEffect s).showIntro = s.showIntro := by
  unfold glowEffect
  split <;> rfl

/-- The glow effect never touches the dead flag. -/
theorem glowEffect_dead (s : AppState) : (glowEffect s).dead = s.dead := by
  unfold glowEffect
  split <;> rfl

/-- The glow effect never clears the glow flag. -/
theorem glowEffect_glow_mono (s : AppState) (h : s.isGlowing = true) :
    (glowEffect s).isGlowing = true := by
  unfold glowEffect
  split
  · rfl
  · exact h

/-- No app-level event ever clears the glow flag. -/
theorem appStep_glow_mono (e : AppEvent) (s : AppState)
    (h : s.isGlowing = true) : (appStep e s).isGlowing = true := by
  cases e with
  | scrubEvent => exact glowEffect_glow_mono (handleScrub s) h
  | answerEvent a => exact h
  | deadTimer => exact h

/-- A scrub event advances the counter by exactly one. -/
theorem appStep_scrub_scrubs (s : AppState) :
    (appStep AppEvent.scrubEvent s).scrubs = s.scrubs + 1 := by
  unfold appStep
  rw [glowEffect_scrubs]
  rfl

/-- A scrub event that brings the counter to the threshold sets the glow. -/
theorem appStep_scrub_glow (s : AppState) (h : 10 ≤ s.scrubs + 1) :
    (appStep AppEvent.scrubEvent s).isGlowing = true := by
  show (glowEffect (handleScrub s)).isGlowing = true
  unfold glowEffect
  rw [if_pos]
  exact h

/-- If the detector fires, the cooldown flag was clear and the new cooldown
releases exactly `cooldownMs` after the firing time. -/
theorem scrubDetect_fired (p : Vec3) (now : ℚ) (cd : Option ℚ)
    (h : (scrubDetect p now cd).1 = true) :
    scrubGuard p = true ∧ cooldownActive now cd = false ∧
      (scrubDetect p now cd).2 = some (now + cooldownMs) := by
  unfold scrubDetect at h ⊢
  by_cases hc : (scrubGuard p && !cooldownActive now cd) = true
  · have h12 : scrubGuard p = true ∧ cooldownActive now cd = false := by
      simpa using hc
    refine ⟨h12.1, h12.2, ?_⟩
    rw [if_pos hc]
  · rw [if_neg hc] at h
    exact absurd h (by simp)

/-- A frame fires only while dragging, only with the cooldown flag clear,
and firing schedules the release `cooldownMs` later. -/
theorem spongeFrame_fired (sinFn : ℚ → ℚ) (f : FrameInput) (s : SpongeState)
    (h : (spongeFrame sinFn f s).fired = true) :
    f.dragging = true ∧
      scrubGuard (dragClamp f.pointerPos) = true ∧
      cooldownActive f.now s.cooldownUntil = false ∧
      (spongeFrame sinFn f s).state.cooldownUntil = some (f.now + cooldownMs) := by
  by_cases hd : f.dragging = true
  · have hsd : (scrubDetect (dragClamp f.pointerPos) f.now s.cooldownUntil).1
        = true := by
      unfold spongeFrame at h
      simpa [hd] using h
    rcases scrubDetect_fired _ _ _ hsd with ⟨h1, h2, h3⟩
    refine ⟨hd, h1, h2, ?_⟩
    unfold spongeFrame
    simp [hd, h3]
  · simp only [Bool.not_eq_true] at hd
    unfold spongeFrame at h
    simp [hd] at h

/-- While the cooldown release time has not been reached, a frame never
fires and leaves the scheduled release untouched. -/
theorem spongeFrame_cooldown_blocks (sinFn : ℚ → ℚ) (g : FrameInput)
    (s : SpongeState) (u : ℚ) (hc : s.cooldownUntil = some u)
    (ht : g.now < u) :
    (spongeFrame sinFn g s).fired = false ∧
      (spongeFrame sinFn g s).state.cooldownUntil = some u := by
  have hact : cooldownActive g.now (some u) = true := by
    simpa [cooldownActive] using ht
  by_cases hd : g.dragging = true
  · unfold spongeFrame
    simp [hd, scrubDetect, hact, hc]
  · simp only [Bool.not_eq_true] at hd
    unfold spongeFrame
    simp [hd, hc]

/-- The fire count of `simulate` over a frame that fires. -/
theorem simulate_cons_fired_fires (sinFn : ℚ → ℚ) (f : FrameInput)
    (fs : List FrameInput) (sp : SpongeState) (app : AppState)
    (h : (spongeFrame sinFn f sp).fired = true) :
    (simulate sinFn (f :: fs) sp app).fires
      = 1 + (simulate sinFn fs (spongeFrame sinFn f sp).state
          (appStep AppEvent.scrubEvent app)).fires := by
  simp [simulate, h]

/-- The app state of `simulate` over a frame that fires. -/
theorem simulate_cons_fired_app (sinFn : ℚ → ℚ) (f : FrameInput)
    (fs : List FrameInput) (sp : SpongeState) (app : AppState)
    (h : (spongeFrame sinFn f sp).fired = true) :
    (simulate sinFn (f :: fs) sp app).app
      = (simulate sinFn fs (spongeFrame sinFn f sp).state
          (appStep AppEvent.scrubEvent app)).app := by
  simp [simulate, h]

/-- Unfolding `simulate` over a frame that does not fire. -/
theorem simulate_cons_unfired (sinFn : ℚ → ℚ) (f : FrameInput)
    (fs : List FrameInput) (sp : SpongeState) (app : AppState)
    (h : (spongeFrame sinFn f sp).fired = false) :
    simulate sinFn (f :: fs) sp app
      = simulate sinFn fs (spongeFrame sinFn f sp).state app := by
  simp [simulate, h]

/-- While every remaining frame time is before the scheduled cooldown
release, no frame fires and the app state is untouched. -/
theorem simulate_cooldown_quiet (sinFn : ℚ → ℚ) :
    ∀ (frames : List FrameInput) (sp : SpongeState) (app : AppState) (u : ℚ),
      sp.cooldownUntil = some u → (∀ g ∈ frames, g.now < u) →
      (simulate sinFn frames sp app).fires = 0 ∧
        (simulate sinFn frames sp app).app = app := by
  intro frames
  induction frames with
  | nil => intro sp app u _ _; exact ⟨rfl, rfl⟩
  | cons f fs ih =>
    intro sp app u hc hlt
    rcases spongeFrame_cooldown_blocks sinFn f sp u hc
      (hlt f (by simp)) with ⟨hf, hcd⟩
    rw [simulate_cons_unfired sinFn f fs sp app hf]
    exact ih (spongeFrame sinFn f sp).state app u hcd
      (fun g hg => hlt g (by simp [hg]))

/-- The final counter is the initial counter plus the number of fires. -/
theorem simulate_scrubs (sinFn : ℚ → ℚ) :
    ∀ (frames : List FrameInput) (sp : SpongeState) (app : AppState),
      (simulate sinFn frames sp app).app.scrubs
        = app.scrubs + (simulate sinFn frames sp app).fires := by
  intro frames
  induction frames with
  | nil => intro sp app; rfl
  | cons f fs ih =>
    intro sp app
    cases hf : (spongeFrame sinFn f sp).fired with
    | false =>
      rw [simulate_cons_unfired sinFn f fs sp app hf]
      exact ih _ app
    | true =>
      rw [simulate_cons_fired_app sinFn f fs sp app hf,
        simulate_cons_fired_fires sinFn f fs sp app hf,
        ih (spongeFrame sinFn f sp).state (appStep AppEvent.scrubEvent app),
        appStep_scrub_scrubs]
      omega

/-- Once the glow flag is set, no further frames ever clear it. -/
theorem simulate_glow_mono (sinFn : ℚ → ℚ) :
    ∀ (frames : List FrameInput) (sp : SpongeState) (app : AppState),
      app.isGlowing = true →
      (simulate sinFn frames sp app).app.isGlowing = true := by
  intro frames
  induction frames with
  | nil => intro sp app h; exact h
  | cons f fs ih =>
    intro sp app h
    cases hf : (spongeFrame sinFn f sp).fired with
    | false =>
      rw [simulate_cons_unfired sinFn f fs sp app hf]
      exact ih _ app h
    | true =>
      rw [simulate_cons_fired_app sinFn f fs sp app hf]
      exact ih _ _ (appStep_glow_mono AppEvent.scrubEvent app h)

/-- If at least one fire occurs and the fires carry the counter to the
threshold, the glow flag ends up set. -/
theorem simulate_glow_reached (sinFn : ℚ → ℚ) :
    ∀ (frames : List FrameInput) (sp : SpongeState) (app : AppState),
      1 ≤ (simulate sinFn frames sp app).fires →
      10 ≤ app.scrubs + (simulate sinFn frames sp app).fires →
      (simulate sinFn frames sp app).app.isGlowing = true := by
  intro frames
  induction frames with
  | nil =>
    intro sp app h1 _
    exact absurd h1 (by simp [simulate])
  | cons f fs ih =>
    intro sp app h1 h10
    cases hf : (spongeFrame sinFn f sp).fired with
    | false =>
      rw [simulate_cons_unfired sinFn f fs sp app hf] at h1 h10 ⊢
      exact ih _ app h1 h10
    | true =>
      rw [simulate_cons_fired_fires sinFn f fs sp app hf] at h1 h10
      rw [simulate_cons_fired_app sinFn f fs sp app hf]
      by_cases hth : 10 ≤ app.scrubs + 1
      · exact simulate_glow_mono sinFn fs _ _ (appStep_scrub_glow app hth)
      · have hr : 1 ≤ (simulate sinFn fs (spongeFrame sinFn f sp).state
            (appStep AppEvent.scrubEvent app)).fires := by omega
        refine ih _ (appStep AppEvent.scrubEvent app) hr ?_
        rw [appStep_scrub_scrubs]
        omega

/-- Every frame of a qualifying, cooldown-spaced sequence fires. -/
theorem simulate_all_fire (sinFn : ℚ → ℚ) :
    ∀ (frames : List FrameInput) (sp : SpongeState) (app : AppState),
      (∀ f ∈ frames, f.dragging = true) →
      (∀ f ∈ frames, scrubGuard (dragClamp f.pointerPos) = true) →
      List.Chain' spacedFrames frames →
      (∀ f, frames.head? = some f →
        cooldownActive f.now sp.cooldownUntil = false) →
      (simulate sinFn frames sp app).fires = frames.length := by
  intro frames
  induction frames with
  | nil => intro sp app _ _ _ _; rfl
  | cons f fs ih =>
    intro sp app hd hq hch hc0
    have hdf : f.dragging = true := hd f (by simp)
    have hqf : scrubGuard (dragClamp f.pointerPos) = true := hq f (by simp)
    have hcf : cooldownActive f.now sp.cooldownUntil = false := hc0 f rfl
    have hfire : (spongeFrame sinFn f sp).fired = true := by
      unfold spongeFrame
      simp [hdf, scrubDetect, hqf, hcf]
    have hcd : (spongeFrame sinFn f sp).state.cooldownUntil
        = some (f.now + cooldownMs) :=
      (spongeFrame_fired sinFn f sp hfire).2.2.2
    rw [simulate_cons_fired_fires sinFn f fs sp app hfire]
    have htail : (simulate sinFn fs (spongeFrame sinFn f sp).state
        (appStep AppEvent.scrubEvent app)).fires = fs.length := by
      refine ih _ _ (fun g hg => hd g (by simp [hg]))
        (fun g hg => hq g (by simp [hg])) hch.tail ?_
      intro g hg
      have hrel : spacedFrames f g :=
        (List.chain'_cons'.mp hch).1 g (Option.mem_def.mpr hg)
      rw [hcd]
      simp only [cooldownActive, decide_eq_false_iff_not, not_lt]
      exact hrel
    rw [htail, List.length_cons]
    omega

/-! ### Claim theorems -/

/-- Claim C1: a scrub event fires only while the cooldown is not active;
firing starts the cooldown and schedules its release `cooldownMs` = 350 ms
later, and over any subsequent frames whose times all fall strictly inside
that window no further event fires — the counter keeps only the first
increment, whatever the distances on those frames. -/
theorem scrub_cooldown_window (sinFn : ℚ → ℚ) (f : FrameInput)
    (sp : SpongeState) (app : AppState) (rest : List FrameInput)
    (hfire : (spongeFrame sinFn f sp).fired = true)
    (hwithin : ∀ g ∈ rest, g.now < f.now + cooldownMs) :
    cooldownActive f.now sp.cooldownUntil = false ∧
    (spongeFrame sinFn f sp).state.cooldownUntil = some (f.now + cooldownMs) ∧
    (simulate sinFn rest (spongeFrame sinFn f sp).state
        (appStep AppEvent.scrubEvent app)).fires = 0 ∧
    (simulate sinFn rest (spongeFrame sinFn f sp).state
        (appStep AppEvent.scrubEvent app)).app.scrubs = app.scrubs + 1 := by
  rcases spongeFrame_fired sinFn f sp hfire with ⟨-, -, h2, h3⟩
  rcases simulate_cooldown_quiet sinFn rest (spongeFrame sinFn f sp).state
      (appStep AppEvent.scrubEvent app) (f.now + cooldownMs) h3 hwithin with
    ⟨hq0, hqa⟩
  exact ⟨h2, h3, hq0, by rw [hqa, appStep_scrub_scrubs]⟩

/-- Witness for `scrub_cooldown_window`: a fire at time 0 followed by a
qualifying frame at time 100, inside the 350 ms window. -/
theorem scrub_cooldown_window_witness :
    (spongeFrame (fun _ => 0) ⟨true, ⟨0, 0, 0⟩, 0⟩ initialSponge).fired
        = true ∧
    (FrameInput.mk true ⟨0, 0, 0⟩ 100).now < (0 : ℚ) + cooldownMs ∧
    (cooldownActive 0 initialSponge.cooldownUntil = false ∧
      (spongeFrame (fun _ => 0) ⟨true, ⟨0, 0, 0⟩, 0⟩
          initialSponge).state.cooldownUntil = some (0 + cooldownMs) ∧
      (simulate (fun _ => 0) [⟨true, ⟨0, 0, 0⟩, 100⟩]
          (spongeFrame (fun _ => 0) ⟨true, ⟨0, 0, 0⟩, 0⟩ initialSponge).state
          (appStep AppEvent.scrubEvent initialAppState)).fires = 0 ∧
      (simulate (fun _ => 0) [⟨true, ⟨0, 0, 0⟩, 100⟩]
          (spongeFrame (fun _ => 0) ⟨true, ⟨0, 0, 0⟩, 0⟩ initialSponge).state
          (appStep AppEvent.scrubEvent initialAppState)).app.scrubs
        = initialAppState.scrubs + 1) := by
  have hfire :
      (spongeFrame (fun _ => 0) ⟨true, ⟨0, 0, 0⟩, 0⟩ initialSponge).fired
        = true := by
    have hg : scrubGuard (dragClamp ⟨0, 0, 0⟩) = true := by
      norm_num [scrubGuard, dragClamp, clampY, distSq, crowCenter, radiusSq,
        triggerRadius]
    simp [spongeFrame, scrubDetect, initialSponge, cooldownActive, hg]
  have hwin : ∀ g ∈ [(⟨true, ⟨0, 0, 0⟩, 100⟩ : FrameInput)],
      g.now < (FrameInput.mk true ⟨0, 0, 0⟩ 0).now + cooldownMs := by
    intro g hg
    rw [List.mem_singleton] at hg
    subst hg
    norm_num [cooldownMs]
  exact ⟨hfire, by norm_num [cooldownMs],
    scrub_cooldown_window (fun _ => 0) ⟨true, ⟨0, 0, 0⟩, 0⟩ initialSponge
      initialAppState [⟨true, ⟨0, 0, 0⟩, 100⟩] hfire hwin⟩

/-- Claim C2: every frame of a sequence of N qualifying proximity frames
spaced at least the cooldown duration apart fires, so from the fresh state
the counter equals N; once N reaches 10 the glow flag is true and remains
true over any further frames — it is never reset to false. -/
theorem scrub_count_and_glow (sinFn : ℚ → ℚ) (frames more : List FrameInput)
    (sp sp2 : SpongeState)
    (hcd : sp.cooldownUntil = none)
    (hd : ∀ f ∈ frames, f.dragging = true)
    (hq : ∀ f ∈ frames, scrubGuard (dragClamp f.pointerPos) = true)
    (hch : List.Chain' spacedFrames frames) :
    (simulate sinFn frames sp initialAppState).fires = frames.length ∧
    (simulate sinFn frames sp initialAppState).app.scrubs = frames.length ∧
    (10 ≤ frames.length →
      (simulate sinFn frames sp initialAppState).app.isGlowing = true ∧
      (simulate sinFn more sp2
          (simulate sinFn frames sp initialAppState).app).app.isGlowing
        = true) := by
  have hzero : initialAppState.scrubs = 0 := rfl
  have hfires :
      (simulate sinFn frames sp initialAppState).fires = frames.length := by
    refine simulate_all_fire sinFn frames sp initialAppState hd hq hch ?_
    intro g hg
    rw [hcd]
    rfl
  have hscrubs :
      (simulate sinFn frames sp initialAppState).app.scrubs
        = frames.length := by
    rw [simulate_scrubs sinFn frames sp initialAppState, hfires, hzero]
    omega
  refine ⟨hfires, hscrubs, fun h10 => ?_⟩
  have hglow :
      (simulate sinFn frames sp initialAppState).app.isGlowing = true := by
    refine simulate_glow_reached sinFn frames sp initialAppState ?_ ?_ <;>
      rw [hfires] <;> omega
  exact ⟨hglow, simulate_glow_mono sinFn more sp2 _ hglow⟩

/-- Witness for `scrub_count_and_glow`: the ten-frame fixture drives the
counter to 10 and sets the glow, which survives one further idle frame. -/
theorem scrub_count_and_glow_witness :
    initialSponge.cooldownUntil = none ∧
    ((simulate (fun _ => 0) tenFrames initialSponge initialAppState).fires
        = tenFrames.length ∧
      (simulate (fun _ => 0) tenFrames initialSponge
          initialAppState).app.scrubs = tenFrames.length ∧
      (10 ≤ tenFrames.length →
        (simulate (fun _ => 0) tenFrames initialSponge
            initialAppState).app.isGlowing = true ∧
        (simulate (fun _ => 0) [⟨false, ⟨0, 0, 0⟩, 99999⟩] initialSponge
            (simulate (fun _ => 0) tenFrames initialSponge
              initialAppState).app).app.isGlowing = true)) := by
  have hg : scrubGuard (dragClamp ⟨0, 0, 0⟩) = true := by
    norm_num [scrubGuard, dragClamp, clampY, distSq, crowCenter, radiusSq,
      triggerRadius]
  refine ⟨rfl, scrub_count_and_glow (fun _ => 0) tenFrames
    [⟨false, ⟨0, 0, 0⟩, 99999⟩] initialSponge initialSponge rfl ?_ ?_ ?_⟩
  · intro f hf
    simp only [tenFrames, List.mem_cons, List.not_mem_nil, or_false] at hf
    rcases hf with rfl | rfl | rfl | rfl | rfl | rfl | rfl | rfl | rfl | rfl <;>
      rfl
  · intro f hf
    simp only [tenFrames, List.mem_cons, List.not_mem_nil, or_false] at hf
    rcases hf with rfl | rfl | rfl | rfl | rfl | rfl | rfl | rfl | rfl | rfl <;>
      exact hg
  · norm_num [tenFrames, List.chain'_cons, List.chain'_singleton, spacedFrames,
      cooldownMs]

/-- Claim C3: dismissing the intro modal via either button produces the very
same state transition — the intro disappears, an 800 ms timer is scheduled,
and when it fires the dead flag becomes true; the chosen answer does not
affect the outcome. -/
theorem answer_noninterference (s : AppState) :
    handleAnswer Answer.yes s = handleAnswer Answer.no s ∧
    (handleAnswer Answer.yes s).2 = deadDelayMs ∧
    deadDelayMs = 800 ∧
    (handleAnswer Answer.yes s).1.showIntro = false ∧
    (deadTimerFire (handleAnswer Answer.yes s).1).dead = true :=
  ⟨rfl, rfl, rfl, rfl, rfl⟩

/-- Claim C4: the trigger comparison is strict.  At the target point the
squared distance is 0, below the squared radius, so (cooldown permitting) the
detector fires; at any point whose distance is at or beyond the radius it
does not fire. -/
theorem strict_threshold (p : Vec3) (now : ℚ) (cd : Option ℚ)
    (hcd : cooldownActive now cd = false) :
    distSq crowCenter crowCenter = 0 ∧
    (scrubDetect crowCenter now cd).1 = true ∧
    (radiusSq ≤ distSq p crowCenter → (scrubDetect p now cd).1 = false) := by
  refine ⟨by norm_num [distSq], ?_, ?_⟩
  · have hg : scrubGuard crowCenter = true := by
      norm_num [scrubGuard, distSq, radiusSq, triggerRadius]
    simp [scrubDetect, hg, hcd]
  · intro hge
    have hg : scrubGuard p = false := by
      simp only [scrubGuard, decide_eq_false_iff_not, not_lt]
      exact hge
    simp [scrubDetect, hg]

/-- Witness for `strict_threshold` at a concrete cooldown-free state and a
point five units away on the x-axis. -/
theorem strict_threshold_witness :
    cooldownActive 0 none = false ∧
    (distSq crowCenter crowCenter = 0 ∧
      (scrubDetect crowCenter 0 none).1 = true ∧
      (radiusSq ≤ distSq ⟨5, 0, 0⟩ crowCenter →
        (scrubDetect (⟨5, 0, 0⟩ : Vec3) 0 none).1 = false)) :=
  ⟨rfl, strict_threshold ⟨5, 0, 0⟩ 0 none rfl⟩

/-- Claim C5: when an asset path fails to resolve, `ModelOrFallback` renders
the supplied fallback and `CrowModel` renders the procedural placeholder
crow; in both components the failure is consumed by the catch branch, so no
fault reaches the enclosing view. -/
theorem asset_load_fallback (e : String) (g : Bool) :
    ModelOrFallback (LoadResult.failed e) = Rendered.fallbackShape ∧
    CrowModel (LoadResult.failed e) g = CrowRender.placeholderCrow g :=
  ⟨rfl, rfl⟩

/-- Claim C6: a fired scrub trigger plays exactly the two sound cues, and the
`onScrub` handler increments the counter by exactly one while leaving the
glow, intro and dead flags untouched. -/
theorem scrub_trigger_effects (sinFn : ℚ → ℚ) (f : FrameInput)
    (sp : SpongeState) (s : AppState)
    (hfired : (spongeFrame sinFn f sp).fired = true) :
    (spongeFrame sinFn f sp).sounds = [Sound.splash, Sound.caw] ∧
    (handleScrub s).scrubs = s.scrubs + 1 ∧
    (handleScrub s).isGlowing = s.isGlowing ∧
    (handleScrub s).showIntro = s.showIntro ∧
    (handleScrub s).dead = s.dead := by
  refine ⟨?_, rfl, rfl, rfl, rfl⟩
  unfold spongeFrame at hfired ⊢
  by_cases hd : f.dragging = true
  · simp only [hd, if_true] at hfired ⊢
    simp [hfired]
  · simp only [Bool.not_eq_true] at hd
    simp [hd] at hfired

/-- Witness for `scrub_trigger_effects`: with the pointer at the origin and a
fresh cooldown the frame fires. -/
theorem scrub_trigger_effects_witness :
    (spongeFrame (fun _ => 0) ⟨true, ⟨0, 0, 0⟩, 0⟩ initialSponge).fired = true ∧
    ((spongeFrame (fun _ => 0) ⟨true, ⟨0, 0, 0⟩, 0⟩ initialSponge).sounds
        = [Sound.splash, Sound.caw] ∧
      (handleScrub initialAppState).scrubs = initialAppState.scrubs + 1 ∧
      (handleScrub initialAppState).isGlowing = initialAppState.isGlowing ∧
      (handleScrub initialAppState).showIntro = initialAppState.showIntro ∧
      (handleScrub initialAppState).dead = initialAppState.dead) := by
  have hfired :
      (spongeFrame (fun _ => 0) ⟨true, ⟨0, 0, 0⟩, 0⟩ initialSponge).fired
        = true := by
    have hg : scrubGuard (dragClamp ⟨0, 0, 0⟩) = true := by
      norm_num [scrubGuard, dragClamp, clampY, distSq, crowCenter, radiusSq,
        triggerRadius]
    simp [spongeFrame, scrubDetect, initialSponge, cooldownActive, hg]
  exact ⟨hfired, scrub_trigger_effects (fun _ => 0) ⟨true, ⟨0, 0, 0⟩, 0⟩
    initialSponge initialAppState hfired⟩

/-- Claim C7: while no drag gesture is active the frame follows the idle
path — rotation advances by 0.01 and the rendered y bobs sinusoidally — and
no scrub fires and no sound plays, whatever the distance to the target. -/
theorem idle_never_scrubs (sinFn : ℚ → ℚ) (f : FrameInput) (s : SpongeState)
    (hid : f.dragging = false) :
    (spongeFrame sinFn f s).fired = false ∧
    (spongeFrame sinFn f s).sounds = [] ∧
    (spongeFrame sinFn f s).state.rotZ = s.rotZ + 1 / 100 ∧
    (spongeFrame sinFn f s).state.renderY
      = s.position.y + sinFn (f.now / 700) * (2 / 100) ∧
    (spongeFrame sinFn f s).state.position = s.position ∧
    (spongeFrame sinFn f s).state.cooldownUntil = s.cooldownUntil := by
  unfold spongeFrame
  simp [hid]

/-- Witness for `idle_never_scrubs` at a frame whose position is right on the
crow center. -/
theorem idle_never_scrubs_witness :
    (FrameInput.mk false crowCenter 0).dragging = false ∧
    ((spongeFrame (fun _ => 0) ⟨false, crowCenter, 0⟩ initialSponge).fired
        = false ∧
      (spongeFrame (fun _ => 0) ⟨false, crowCenter, 0⟩ initialSponge).sounds
        = [] ∧
      (spongeFrame (fun _ => 0) ⟨false, crowCenter, 0⟩
          initialSponge).state.rotZ = initialSponge.rotZ + 1 / 100 ∧
      (spongeFrame (fun _ => 0) ⟨false, crowCenter, 0⟩
          initialSponge).state.renderY
        = initialSponge.position.y + (fun _ => (0 : ℚ)) ((0 : ℚ) / 700) * (2 / 100) ∧
      (spongeFrame (fun _ => 0) ⟨false, crowCenter, 0⟩
          initialSponge).state.position = initialSponge.position ∧
      (spongeFrame (fun _ => 0) ⟨false, crowCenter, 0⟩
          initialSponge).state.cooldownUntil = initialSponge.cooldownUntil) :=
  ⟨rfl, idle_never_scrubs (fun _ => 0) ⟨false, crowCenter, 0⟩ initialSponge rfl⟩

/-- Claim C8: the idle vertical offset is a pure function of elapsed time:
two idle frames sampled at the same time from the same state produce the same
rendered y, whatever the pointer position of each. -/
theorem idle_offset_pure (sinFn : ℚ → ℚ) (f g : FrameInput) (s : SpongeState)
    (hf : f.dragging = false) (hg : g.dragging = false) (ht : f.now = g.now) :
    (spongeFrame sinFn f s).state.renderY
      = (spongeFrame sinFn g s).state.renderY := by
  unfold spongeFrame
  simp [hf, hg, ht]

/-- Witness for `idle_offset_pure`: two samples at time 42 with different
pointer positions. -/
theorem idle_offset_pure_witness :
    (FrameInput.mk false ⟨1, 2, 3⟩ 42).dragging = false ∧
    (FrameInput.mk false ⟨7, 8, 9⟩ 42).dragging = false ∧
    (FrameInput.mk false ⟨1, 2, 3⟩ 42).now = (FrameInput.mk false ⟨7, 8, 9⟩ 42).now ∧
    (spongeFrame (fun q => q) ⟨false, ⟨1, 2, 3⟩, 42⟩ initialSponge).state.renderY
      = (spongeFrame (fun q => q) ⟨false, ⟨7, 8, 9⟩, 42⟩ initialSponge).state.renderY :=
  ⟨rfl, rfl, rfl,
    idle_offset_pure (fun q => q) ⟨false, ⟨1, 2, 3⟩, 42⟩ ⟨false, ⟨7, 8, 9⟩, 42⟩
      initialSponge rfl rfl rfl⟩

/-- Claim C9: while dragging, the stored y-coordinate is the clamp of the
pointer-derived y to [-0.3, 1.2], so it never leaves that interval. -/
theorem drag_y_clamped (sinFn : ℚ → ℚ) (f : FrameInput) (s : SpongeState)
    (hd : f.dragging = true) :
    -(3 / 10) ≤ (spongeFrame sinFn f s).state.position.y ∧
    (spongeFrame sinFn f s).state.position.y ≤ 12 / 10 := by
  unfold spongeFrame
  simp only [hd, if_true]
  constructor
  · exact le_max_left _ _
  · exact max_le (by norm_num) (min_le_left _ _)

/-- Witness for `drag_y_clamped` at a pointer far below the clamp range. -/
theorem drag_y_clamped_witness :
    (FrameInput.mk true ⟨0, -50, 0⟩ 0).dragging = true ∧
    (-(3 / 10) ≤ (spongeFrame (fun _ => 0) ⟨true, ⟨0, -50, 0⟩, 0⟩
        initialSponge).state.position.y ∧
      (spongeFrame (fun _ => 0) ⟨true, ⟨0, -50, 0⟩, 0⟩
        initialSponge).state.position.y ≤ 12 / 10) :=
  ⟨rfl, drag_y_clamped (fun _ => 0) ⟨true, ⟨0, -50, 0⟩, 0⟩ initialSponge rfl⟩

/-- Claim C10: the counter has no upper bound: a scrub event increments it by
one even once it is at or above the threshold of 10, and the HUD then shows a
value strictly greater than 10. -/
theorem counter_unbounded (s : AppState) (h : 10 ≤ s.scrubs) :
    (appStep AppEvent.scrubEvent s).scrubs = s.scrubs + 1 ∧
    10 < (appStep AppEvent.scrubEvent s).scrubs ∧
    hudCounter (appStep AppEvent.scrubEvent s)
      = "Scrubs: " ++ toString (s.scrubs + 1) ++ " / 10" := by
  have hs : (appStep AppEvent.scrubEvent s).scrubs = s.scrubs + 1 := by
    unfold appStep
    rw [glowEffect_scrubs]
    rfl
  refine ⟨hs, by omega, ?_⟩
  unfold hudCounter
  rw [hs]

/-- Witness for `counter_unbounded` at eleven scrubs: the HUD shows
"Scrubs: 12 / 10". -/
theorem counter_unbounded_witness :
    10 ≤ (AppState.mk 11 true false false).scrubs ∧
    ((appStep AppEvent.scrubEvent ⟨11, true, false, false⟩).scrubs
        = (AppState.mk 11 true false false).scrubs + 1 ∧
      10 < (appStep AppEvent.scrubEvent ⟨11, true, false, false⟩).scrubs ∧
      hudCounter (appStep AppEvent.scrubEvent ⟨11, true, false, false⟩)
        = "Scrubs: 12 / 10") := by
  have h := counter_unbounded ⟨11, true, false, false⟩ (by norm_num)
  exact ⟨by norm_num, h.1, h.2.1, by rw [h.2.2]; rfl⟩

end BathingCrow
